import Mathlib

/-!
Shallow embedding of the refresh-token lifecycle engine of the
my-api-express repository.

Source files embedded:
  - src/config/constants.ts (token lifetimes)
  - src/db/schema/auth/refresh_tokens.ts (row shape, unique index on token_hash)
  - src/db/queries/refresh-token.queries.ts (store operations)
  - src/modules/auth/auth.service.ts (AuthService.login / refreshTokens / logout)

Modelling conventions: machine time is an integer (milliseconds, like a JS
Date value); the SHA-256 digest is modelled as a deterministic injective
tagging function; database-generated ids are serial naturals drawn from the
store; random secret generation is a parameter of each operation (the caller
supplies the value that crypto.randomBytes produced); the unique index on
token_hash makes an insert of a duplicate digest fail, exactly as the
PostgreSQL constraint does.
-/

namespace MyApiExpress

/-- src/config/constants.ts: access-token lifetime in minutes. -/
def TOKEN_EXPIRATION_MINUTES : Int := 15

/-- src/config/constants.ts: refresh-token lifetime in minutes (7 days). -/
def REFRESH_TOKEN_EXPIRATION_MINUTES : Int := 10080

/-- src/utils/auth.ts getRefreshTokenExpirationDate: now plus the refresh
lifetime (setMinutes adds minutes, i.e. minutes * 60 * 1000 ms). -/
def getRefreshTokenExpirationDate (now : Int) : Int :=
  now + REFRESH_TOKEN_EXPIRATION_MINUTES * 60 * 1000

/-- refresh-token.queries.ts hashToken: sha256 hex digest of the token.
Modelled as an injective deterministic tagging function. -/
def hashToken (token : String) : String :=
  "sha256:" ++ token

/-- Row of the auth.refresh_tokens table
(src/db/schema/auth/refresh_tokens.ts). -/
structure RefreshTokenRow where
  id : Nat
  userId : Nat
  tokenHash : String
  expiresAt : Int
  revokedAt : Option Int
  replacedByToken : Option Nat
  createdAt : Int
  userAgent : Option String
  ipAddress : Option String
deriving DecidableEq, Repr

/-- The refresh_tokens table plus the serial id source for defaultRandom. -/
structure Store where
  rows : List RefreshTokenRow
  nextId : Nat
deriving DecidableEq, Repr

/-- refresh-token.queries.ts findRefreshTokenByHash: select the first row
whose token_hash matches AND whose revoked_at IS NULL (limit 1). -/
def findRefreshTokenByHash (rows : List RefreshTokenRow) (tokenHash : String) :
    Option RefreshTokenRow :=
  rows.find? (fun r => r.tokenHash == tokenHash && r.revokedAt.isNone)

/-- refresh-token.queries.ts revokeRefreshToken: unconditional UPDATE of the
row(s) with the given id, setting revoked_at = now() and replaced_by_token =
replacedByTokenId || null. -/
def revokeRefreshToken (rows : List RefreshTokenRow) (tokenId : Nat)
    (replacedByTokenId : Option Nat) (now : Int) : List RefreshTokenRow :=
  rows.map fun r =>
    if r.id == tokenId then
      { r with revokedAt := some now, replacedByToken := replacedByTokenId }
    else r

/-- refresh-token.queries.ts revokeAllUserRefreshTokens: set revoked_at on
every row of the user whose revoked_at IS NULL. -/
def revokeAllUserRefreshTokens (rows : List RefreshTokenRow) (userId : Nat)
    (now : Int) : List RefreshTokenRow :=
  rows.map fun r =>
    if r.userId == userId && r.revokedAt.isNone then
      { r with revokedAt := some now }
    else r

/-- refresh-token.queries.ts cleanupExpiredTokens: delete rows with
expires_at < now. -/
def cleanupExpiredTokens (rows : List RefreshTokenRow) (now : Int) :
    List RefreshTokenRow :=
  rows.filter fun r => !(r.expiresAt < now)

/-- Message of the database error the driver raises when the unique index
idx_refresh_tokens_token_hash rejects a duplicate digest. -/
def uniqueViolationMsg : String :=
  "unique violation: idx_refresh_tokens_token_hash"

/-- refresh-token.queries.ts createRefreshToken: hash the token and INSERT a
new row. The unique index on token_hash makes the insert fail when the
digest already exists; the TS function does not catch that driver error. -/
def createRefreshToken (st : Store) (token : String) (userId : Nat)
    (expiresAt : Int) (userAgent ipAddress : Option String) (now : Int) :
    Except String (RefreshTokenRow × Store) :=
  let tokenHash := hashToken token
  if st.rows.any (fun r => r.tokenHash == tokenHash) then
    Except.error uniqueViolationMsg
  else
    let newToken : RefreshTokenRow :=
      { id := st.nextId, userId := userId, tokenHash := tokenHash,
        expiresAt := expiresAt, revokedAt := none, replacedByToken := none,
        createdAt := now, userAgent := userAgent, ipAddress := ipAddress }
    Except.ok (newToken, { rows := st.rows ++ [newToken], nextId := st.nextId + 1 })

/-- The slice of the users table the auth service reads. -/
structure User where
  id : Nat
  role : Option String
deriving DecidableEq, Repr

/-- External collaborators of AuthService.refreshTokens: the users table and
the set of profile ids. -/
structure Env where
  users : List User
  profiles : List Nat
deriving DecidableEq, Repr

/-- user.queries.ts getUserById, as consumed by the auth service. -/
def getUserById (env : Env) (userId : Nat) : Option User :=
  env.users.find? (fun u => u.id == userId)

/-- profile.queries.ts getProfileById, as consumed by the auth service. -/
def getProfileById (env : Env) (userId : Nat) : Option Nat :=
  if env.profiles.contains userId then some userId else none

/-- JS truthiness of `user.role || 'user'`: null/undefined and the empty
string fall back to the default role. -/
def roleOrDefault (role : Option String) : String :=
  match role with
  | none => "user"
  | some r => if r == "" then "user" else r

/-- Payload of the signed access credential built by generateToken. -/
structure TokenPayload where
  sub : Nat
  role : String
deriving DecidableEq, Repr

/-- jwt.ts generateToken, reduced to the claims it embeds. -/
def generateToken (sub : Nat) (role : String) : TokenPayload :=
  { sub := sub, role := role }

/-- Machine-readable codes of the AppErrors the auth service throws
(src/config/errors.ts). -/
inductive AuthErrorCode
  | AUTH_REFRESH_TOKEN_NOT_FOUND
  | AUTH_REFRESH_TOKEN_REVOKED
  | AUTH_REFRESH_TOKEN_EXPIRED
  | USER_NOT_FOUND
  | AUTH_INVALID_CREDENTIALS
deriving DecidableEq, Repr

/-- src/errors/AppError.ts: a typed operational error with HTTP status and
stable machine code. -/
structure AppError where
  statusCode : Nat
  code : AuthErrorCode
deriving DecidableEq, Repr

/-- A failure surfaced by a service call: either a typed AppError or an
uncaught driver/database error. -/
inductive ServiceFailure
  | app (e : AppError)
  | db (msg : String)
deriving DecidableEq, Repr

/-- The token pair a successful login/refresh returns. -/
structure TokenPair where
  userId : Nat
  access_token : TokenPayload
  refresh_token : String
deriving DecidableEq, Repr

/-- The store mutations a service call performs, in execution order. -/
inductive StoreOp
  | insert (row : RefreshTokenRow)
  | revoke (tokenId : Nat) (replacedByTokenId : Option Nat)
  | revokeAllForUser (userId : Nat)
deriving DecidableEq, Repr

instance (α β : Type) [DecidableEq α] [DecidableEq β] :
    DecidableEq (Except α β) := fun x y =>
  match x, y with
  | Except.error a, Except.error b =>
      if h : a = b then isTrue (by rw [h]) else isFalse (by simp [h])
  | Except.ok a, Except.ok b =>
      if h : a = b then isTrue (by rw [h]) else isFalse (by simp [h])
  | Except.error _, Except.ok _ => isFalse (by simp)
  | Except.ok _, Except.error _ => isFalse (by simp)

/-- Result of a service call: the outcome, the store afterwards, and the
trace of store mutations in the order they were executed. -/
structure ServiceOut where
  outcome : Except ServiceFailure TokenPair
  store : Store
  trace : List StoreOp
deriving DecidableEq, Repr

/-- auth.service.ts AuthService.refreshTokens. `newSecret` stands for the
value generateRefreshToken() drew from crypto.randomBytes. -/
def refreshTokens (env : Env) (st : Store) (refreshToken : String) (now : Int)
    (newSecret : String) (userAgent ipAddress : Option String) : ServiceOut :=
  match findRefreshTokenByHash st.rows (hashToken refreshToken) with
  | none =>
      ⟨Except.error (ServiceFailure.app ⟨401, AuthErrorCode.AUTH_REFRESH_TOKEN_NOT_FOUND⟩), st, []⟩
  | some storedToken =>
      if storedToken.revokedAt.isSome then
        ⟨Except.error (ServiceFailure.app ⟨401, AuthErrorCode.AUTH_REFRESH_TOKEN_REVOKED⟩),
         { st with rows := revokeAllUserRefreshTokens st.rows storedToken.userId now },
         [StoreOp.revokeAllForUser storedToken.userId]⟩
      else if storedToken.expiresAt < now then
        ⟨Except.error (ServiceFailure.app ⟨401, AuthErrorCode.AUTH_REFRESH_TOKEN_EXPIRED⟩), st, []⟩
      else
        match getUserById env storedToken.userId with
        | none =>
            ⟨Except.error (ServiceFailure.app ⟨404, AuthErrorCode.USER_NOT_FOUND⟩), st, []⟩
        | some user =>
            match getProfileById env user.id with
            | none =>
                ⟨Except.error (ServiceFailure.app ⟨404, AuthErrorCode.AUTH_INVALID_CREDENTIALS⟩), st, []⟩
            | some _ =>
                let new_access_token := generateToken user.id (roleOrDefault user.role)
                let expiresAt := getRefreshTokenExpirationDate now
                match createRefreshToken st newSecret user.id expiresAt userAgent ipAddress now with
                | Except.error e => ⟨Except.error (ServiceFailure.db e), st, []⟩
                | Except.ok (newTokenRecord, st1) =>
                    ⟨Except.ok ⟨user.id, new_access_token, newSecret⟩,
                     { st1 with rows := revokeRefreshToken st1.rows storedToken.id (some newTokenRecord.id) now },
                     [StoreOp.insert newTokenRecord,
                      StoreOp.revoke storedToken.id (some newTokenRecord.id)]⟩

/-- auth.service.ts AuthService.login, after the external credential check
produced `user`. `refreshSecret` stands for generateRefreshToken(). -/
def login (st : Store) (user : User) (now : Int) (refreshSecret : String)
    (userAgent ipAddress : Option String) : ServiceOut :=
  let access_token := generateToken user.id (roleOrDefault user.role)
  let expiresAt := getRefreshTokenExpirationDate now
  match createRefreshToken st refreshSecret user.id expiresAt userAgent ipAddress now with
  | Except.error e => ⟨Except.error (ServiceFailure.db e), st, []⟩
  | Except.ok (newToken, st1) =>
      ⟨Except.ok ⟨user.id, access_token, refreshSecret⟩, st1,
       [StoreOp.insert newToken]⟩

/-- auth.service.ts AuthService.logout: look the secret up (active rows
only), and revoke it without a replacement when found and not revoked.
Logout has no failure outcome. -/
def logout (st : Store) (refreshToken : String) (now : Int) :
    Store × List StoreOp :=
  match findRefreshTokenByHash st.rows (hashToken refreshToken) with
  | some storedToken =>
      if storedToken.revokedAt.isNone then
        ({ st with rows := revokeRefreshToken st.rows storedToken.id none now },
         [StoreOp.revoke storedToken.id none])
      else (st, [])
  | none => (st, [])

/-! ## Concrete fixtures -/

/-- A store holding one active, unexpired refresh token for user 1 with
digest of the secret "a". -/
def activeStore : Store :=
  { rows := [{ id := 0, userId := 1, tokenHash := hashToken ("a"),
               expiresAt := 999999999, revokedAt := none,
               replacedByToken := none, createdAt := 0,
               userAgent := none, ipAddress := none }],
    nextId := 1 }

/-- An environment in which user 1 exists (role "admin") with a profile. -/
def userOneEnv : Env :=
  { users := [{ id := 1, role := some ("admin") }], profiles := [1] }

/-- The store after rotating the token of `activeStore` once at time 5
(secret "a" presented, new secret "b" minted). -/
def rotatedStore : Store :=
  (refreshTokens userOneEnv activeStore ("a") 5 ("b") none none).store

/-- C1: presenting the just-rotated secret "a" a second time yields
AUTH_REFRESH_TOKEN_NOT_FOUND with no store mutation and no revocation
cascade — not AUTH_REFRESH_TOKEN_REVOKED with a cascade as the spec
demands — because findRefreshTokenByHash filters out revoked rows, making
the reuse branch of AuthService.refreshTokens unreachable. One record of
the owner (the freshly rotated one) stays active, not zero. -/
theorem refresh_reused_secret_yields_not_found_no_cascade :
    refreshTokens userOneEnv rotatedStore ("a") 6 ("c") none none =
      ⟨Except.error (ServiceFailure.app
        ⟨401, AuthErrorCode.AUTH_REFRESH_TOKEN_NOT_FOUND⟩), rotatedStore, []⟩ ∧
    (rotatedStore.rows.filter (fun r => r.revokedAt.isNone)).length = 1 ∧
    (rotatedStore.rows.filter
      (fun r => r.tokenHash == hashToken ("a"))).map
        (fun r => r.revokedAt) = [some 5] := by
  decide

/-- C2: a record that is both expired (validUntil 10 < now 100) and revoked
is invisible to findRefreshTokenByHash, so refresh answers
AUTH_REFRESH_TOKEN_NOT_FOUND with no cascade — neither the
AUTH_REFRESH_TOKEN_REVOKED outcome the spec requires nor
AUTH_REFRESH_TOKEN_EXPIRED. -/
theorem refresh_expired_and_revoked_yields_not_found :
    refreshTokens userOneEnv
      { rows := [{ id := 0, userId := 1, tokenHash := hashToken ("a"),
                   expiresAt := 10, revokedAt := some 8,
                   replacedByToken := none, createdAt := 0,
                   userAgent := none, ipAddress := none }],
        nextId := 1 }
      ("a") 100 ("c") none none =
      ⟨Except.error (ServiceFailure.app
        ⟨401, AuthErrorCode.AUTH_REFRESH_TOKEN_NOT_FOUND⟩),
       { rows := [{ id := 0, userId := 1, tokenHash := hashToken ("a"),
                    expiresAt := 10, revokedAt := some 8,
                    replacedByToken := none, createdAt := 0,
                    userAgent := none, ipAddress := none }],
         nextId := 1 }, []⟩ := by
  decide

/-- C6: when the presented secret matches an active record whose validity
window has lapsed (expiresAt < now), refresh rejects with
AUTH_REFRESH_TOKEN_EXPIRED, leaves the store untouched and performs no
store operation (in particular no revocation cascade). -/
theorem refresh_expired_rejects_without_mutation
    (env : Env) (st : Store) (tok : String) (now : Int) (sec : String)
    (ua ip : Option String) (r : RefreshTokenRow)
    (hfind : findRefreshTokenByHash st.rows (hashToken tok) = some r)
    (hexp : r.expiresAt < now) :
    refreshTokens env st tok now sec ua ip =
      ⟨Except.error (ServiceFailure.app
        ⟨401, AuthErrorCode.AUTH_REFRESH_TOKEN_EXPIRED⟩), st, []⟩ := by
  have hone := List.find?_some hfind
  simp only [Bool.and_eq_true, beq_iff_eq, Option.isNone_iff_eq_none] at hone
  unfold refreshTokens
  rw [hfind]
  simp [hone.2, hexp]

/-- A single active refresh-token row whose validity window lapsed at 10. -/
def expiredActiveRow : RefreshTokenRow :=
  { id := 0, userId := 1, tokenHash := hashToken ("a"),
    expiresAt := 10, revokedAt := none, replacedByToken := none,
    createdAt := 0, userAgent := none, ipAddress := none }

/-- A store holding only `expiredActiveRow`. -/
def expiredActiveStore : Store :=
  { rows := [expiredActiveRow], nextId := 1 }

/-- Witness for C6 at a concrete expired-but-active store. -/
theorem refresh_expired_rejects_without_mutation_witness :
    findRefreshTokenByHash expiredActiveStore.rows (hashToken ("a")) =
      some expiredActiveRow ∧
    expiredActiveRow.expiresAt < 100 ∧
    refreshTokens userOneEnv expiredActiveStore ("a") 100 ("c") none none =
      ⟨Except.error (ServiceFailure.app
        ⟨401, AuthErrorCode.AUTH_REFRESH_TOKEN_EXPIRED⟩),
       expiredActiveStore, []⟩ :=
  ⟨by decide, by decide,
   refresh_expired_rejects_without_mutation userOneEnv expiredActiveStore
     ("a") 100 ("c") none none expiredActiveRow (by decide) (by decide)⟩

/-- C7 counterexample: logout on a secret that matches an ACTIVE but EXPIRED
record (expiresAt 10 < now 100) does mutate the store: the record is
revoked. The claim says an expired secret leaves the store untouched. -/
theorem logout_expired_active_token_mutates :
    logout expiredActiveStore ("a") 100 =
      ({ rows := [{ expiredActiveRow with revokedAt := some 100 }],
         nextId := 1 }, [StoreOp.revoke 0 none]) ∧
    (logout expiredActiveStore ("a") 100).1 ≠ expiredActiveStore := by
  decide

/-- C7 amended: logout never errors and behaves exactly as: if the presented
secret matches a record with revokedAt null — whether or not that record is
expired — that record is revoked with no replacement; otherwise (unknown or
already-revoked secret) the store is untouched and no operation runs. -/
theorem logout_behavior (st : Store) (tok : String) (now : Int) :
    logout st tok now =
      match findRefreshTokenByHash st.rows (hashToken tok) with
      | some r =>
          ({ st with rows := revokeRefreshToken st.rows r.id none now },
           [StoreOp.revoke r.id none])
      | none => (st, []) := by
  unfold logout
  cases hfind : findRefreshTokenByHash st.rows (hashToken tok) with
  | none => rfl
  | some r =>
      have hone := List.find?_some hfind
      simp only [Bool.and_eq_true] at hone
      simp [hone.2]

/-- C3 counterexample: with a valid active token but a deleted user row,
refresh surfaces the typed failure USER_NOT_FOUND with HTTP status 404 —
a fourth typed outcome that is not 401-class and is none of the three
refresh-token failures. -/
theorem refresh_user_not_found_counterexample :
    (refreshTokens { users := [], profiles := [] } activeStore ("a") 5 ("b")
        none none).outcome =
      Except.error (ServiceFailure.app ⟨404, AuthErrorCode.USER_NOT_FOUND⟩) ∧
    (404 : Nat) ≠ 401 ∧
    AuthErrorCode.USER_NOT_FOUND ≠ AuthErrorCode.AUTH_REFRESH_TOKEN_NOT_FOUND ∧
    AuthErrorCode.USER_NOT_FOUND ≠ AuthErrorCode.AUTH_REFRESH_TOKEN_REVOKED ∧
    AuthErrorCode.USER_NOT_FOUND ≠ AuthErrorCode.AUTH_REFRESH_TOKEN_EXPIRED := by
  decide

/-- C3 amended: every typed failure of refresh is either one of the three
refresh-token outcomes (all 401) or one of the two lookup failures
USER_NOT_FOUND / AUTH_INVALID_CREDENTIALS (profile missing), both 404. -/
theorem refresh_typed_failure_classification
    (env : Env) (st : Store) (tok : String) (now : Int) (sec : String)
    (ua ip : Option String) (e : AppError)
    (h : (refreshTokens env st tok now sec ua ip).outcome =
      Except.error (ServiceFailure.app e)) :
    (e.statusCode = 401 ∧
      (e.code = AuthErrorCode.AUTH_REFRESH_TOKEN_NOT_FOUND ∨
       e.code = AuthErrorCode.AUTH_REFRESH_TOKEN_REVOKED ∨
       e.code = AuthErrorCode.AUTH_REFRESH_TOKEN_EXPIRED)) ∨
    (e.statusCode = 404 ∧
      (e.code = AuthErrorCode.USER_NOT_FOUND ∨
       e.code = AuthErrorCode.AUTH_INVALID_CREDENTIALS)) := by
  unfold refreshTokens at h
  repeat' split at h
  all_goals first
  | (simp_all; subst h; simp; done)
  | skip
  rename_i u xv v hrev hle hu hp
  simp only [] at h
  rcases hcr : createRefreshToken st sec v.id
      (getRefreshTokenExpirationDate now) ua ip now with m | ⟨nr, st1⟩ <;>
    rw [hcr] at h <;> simp at h

/-- Witness for C3 amended: an unknown secret on an empty store produces the
401 AUTH_REFRESH_TOKEN_NOT_FOUND failure, which the classification admits. -/
theorem refresh_typed_failure_classification_witness :
    (refreshTokens { users := [], profiles := [] } { rows := [], nextId := 0 }
        ("z") 0 ("b") none none).outcome =
      Except.error (ServiceFailure.app
        ⟨401, AuthErrorCode.AUTH_REFRESH_TOKEN_NOT_FOUND⟩) ∧
    (((401 : Nat) = 401 ∧
      ((AuthErrorCode.AUTH_REFRESH_TOKEN_NOT_FOUND =
          AuthErrorCode.AUTH_REFRESH_TOKEN_NOT_FOUND) ∨
       (AuthErrorCode.AUTH_REFRESH_TOKEN_NOT_FOUND =
          AuthErrorCode.AUTH_REFRESH_TOKEN_REVOKED) ∨
       (AuthErrorCode.AUTH_REFRESH_TOKEN_NOT_FOUND =
          AuthErrorCode.AUTH_REFRESH_TOKEN_EXPIRED))) ∨
     ((401 : Nat) = 404 ∧
      ((AuthErrorCode.AUTH_REFRESH_TOKEN_NOT_FOUND =
          AuthErrorCode.USER_NOT_FOUND) ∨
       (AuthErrorCode.AUTH_REFRESH_TOKEN_NOT_FOUND =
          AuthErrorCode.AUTH_INVALID_CREDENTIALS)))) :=
  ⟨by decide,
   refresh_typed_failure_classification { users := [], profiles := [] }
     { rows := [], nextId := 0 } ("z") 0 ("b") none none
     ⟨401, AuthErrorCode.AUTH_REFRESH_TOKEN_NOT_FOUND⟩ (by decide)⟩

/-- C8 counterexample: a login whose generated secret collides with a stored
digest surfaces the raw driver error (not a typed Conflict), leaves the
store unchanged and performs no retry: the outcome is the failure of the
single insert attempt, with an empty operation trace. -/
theorem insert_conflict_no_retry_counterexample :
    login activeStore { id := 1, role := none } 0 ("a") none none =
      ⟨Except.error (ServiceFailure.db uniqueViolationMsg), activeStore, []⟩ := by
  decide

/-- C8 amended: inserting a record whose digest already exists fails (the
unique index rejects it, never silently overwriting), and neither caller
retries: both login and a refresh that has reached the insert step
propagate the untyped driver failure with the store unchanged and no store
operation performed. -/
theorem insert_conflict_propagates_without_retry
    (st : Store) (user : User) (now : Int) (sec : String)
    (ua ip : Option String) (env : Env) (tok : String)
    (r : RefreshTokenRow) (u : User) (prof : Nat)
    (h : st.rows.any (fun row => row.tokenHash == hashToken sec) = true)
    (hfind : findRefreshTokenByHash st.rows (hashToken tok) = some r)
    (hexp : ¬ (r.expiresAt < now))
    (hu : getUserById env r.userId = some u)
    (hp : getProfileById env u.id = some prof) :
    createRefreshToken st sec user.id (getRefreshTokenExpirationDate now)
        ua ip now = Except.error uniqueViolationMsg ∧
    login st user now sec ua ip =
      ⟨Except.error (ServiceFailure.db uniqueViolationMsg), st, []⟩ ∧
    refreshTokens env st tok now sec ua ip =
      ⟨Except.error (ServiceFailure.db uniqueViolationMsg), st, []⟩ := by
  have hrnone : r.revokedAt = none := by
    have := List.find?_some hfind
    simp only [Bool.and_eq_true, Option.isNone_iff_eq_none] at this
    exact this.2
  have hcru : ∀ uid : Nat, createRefreshToken st sec uid
      (getRefreshTokenExpirationDate now) ua ip now =
      Except.error uniqueViolationMsg := by
    intro uid
    unfold createRefreshToken
    simp [h]
  refine ⟨hcru user.id, ?_, ?_⟩
  · unfold login
    simp only [hcru user.id]
  · unfold refreshTokens
    rw [hfind]
    simp only []
    rw [hrnone]
    simp only [Option.isSome_none, Bool.false_eq_true, if_false, ite_false,
      if_neg hexp, hu, hp, hcru u.id]

/-- Witness for C8 amended: the digest of "a" is already present in
`activeStore`, and both a login and a refresh minting "a" as the new secret
propagate the conflict with the store untouched. -/
theorem insert_conflict_propagates_without_retry_witness :
    activeStore.rows.any
      (fun row => row.tokenHash == hashToken ("a")) = true ∧
    login activeStore { id := 1, role := none } 5 ("a") none none =
      ⟨Except.error (ServiceFailure.db uniqueViolationMsg),
       activeStore, []⟩ ∧
    refreshTokens userOneEnv activeStore ("a") 5 ("a") none none =
      ⟨Except.error (ServiceFailure.db uniqueViolationMsg),
       activeStore, []⟩ :=
  ⟨by decide,
   (insert_conflict_propagates_without_retry activeStore
     { id := 1, role := none } 5 ("a") none none userOneEnv ("a")
     { id := 0, userId := 1, tokenHash := hashToken ("a"),
       expiresAt := 999999999, revokedAt := none, replacedByToken := none,
       createdAt := 0, userAgent := none, ipAddress := none }
     { id := 1, role := some ("admin") } 1
     (by decide) (by decide) (by decide) (by decide) (by decide)).2.1,
   (insert_conflict_propagates_without_retry activeStore
     { id := 1, role := none } 5 ("a") none none userOneEnv ("a")
     { id := 0, userId := 1, tokenHash := hashToken ("a"),
       expiresAt := 999999999, revokedAt := none, replacedByToken := none,
       createdAt := 0, userAgent := none, ipAddress := none }
     { id := 1, role := some ("admin") } 1
     (by decide) (by decide) (by decide) (by decide) (by decide)).2.2⟩

/-- C9: when the looked-up user row carries no role, both login and refresh
embed the silent default role "user" in the issued access credential; for
refresh only the owner of the presented record is constrained, other users
of the environment may carry any role. -/
theorem null_role_defaults_to_user
    (st : Store) (user : User) (now : Int) (sec : String)
    (ua ip : Option String) (env : Env) (st2 : Store) (tok sec2 : String)
    (now2 : Int) (r : RefreshTokenRow) (u : User)
    (hrole : user.role = none)
    (hfind : findRefreshTokenByHash st2.rows (hashToken tok) = some r)
    (hu : getUserById env r.userId = some u)
    (hurole : u.role = none) :
    (∀ pair, (login st user now sec ua ip).outcome = Except.ok pair →
      pair.access_token.role = "user") ∧
    (∀ pair, (refreshTokens env st2 tok now2 sec2 ua ip).outcome =
        Except.ok pair → pair.access_token.role = "user") := by
  constructor
  · intro pair h
    unfold login at h
    simp only [] at h
    rcases hcr : createRefreshToken st sec user.id
        (getRefreshTokenExpirationDate now) ua ip now with m | ⟨nr, st1⟩ <;>
      rw [hcr] at h <;> simp at h
    subst h
    simp [generateToken, roleOrDefault, hrole]
  · intro pair h
    unfold refreshTokens at h
    rw [hfind] at h
    by_cases hrev : r.revokedAt.isSome = true
    · simp [hrev] at h
    · by_cases hexp : r.expiresAt < now2
      · simp [hrev, hexp] at h
      · simp only [hrev, hexp, if_false, Bool.false_eq_true,
          if_true, ite_false, ite_true] at h
        rw [hu] at h
        simp only [] at h
        cases hp : getProfileById env u.id with
        | none => rw [hp] at h; simp [hrev, hexp] at h
        | some prof =>
            rw [hp] at h
            simp only [] at h
            rcases hcr : createRefreshToken st2 sec2 u.id
                (getRefreshTokenExpirationDate now2) ua ip now2
              with m | ⟨nr, st1⟩ <;>
              rw [hcr] at h <;> simp [hrev, hexp] at h
            subst h
            simp [generateToken, roleOrDefault, hurole]

/-- Environment with a role-less user 1 (who owns the presented record) next
to a role-bearing user 2, witnessing that only the looked-up owner's null
role triggers the default. -/
def mixedRoleEnv : Env :=
  { users := [{ id := 1, role := none }, { id := 2, role := some ("admin") }],
    profiles := [1] }

/-- Witness for C9: a concrete login and refresh — the latter in a mixed
environment where another user carries a role — both issue the access role
"user" for the role-less looked-up user. -/
theorem null_role_defaults_to_user_witness :
    ((login { rows := [], nextId := 0 } { id := 1, role := none } 0 ("a")
        none none).outcome =
      Except.ok ⟨1, ⟨1, "user"⟩, "a"⟩) ∧
    (⟨1, ⟨1, "user"⟩, "a"⟩ : TokenPair).access_token.role = "user" ∧
    ((refreshTokens mixedRoleEnv activeStore ("a") 5 ("b") none
        none).outcome =
      Except.ok ⟨1, ⟨1, "user"⟩, "b"⟩) ∧
    (⟨1, ⟨1, "user"⟩, "b"⟩ : TokenPair).access_token.role = "user" :=
  ⟨by decide,
   (null_role_defaults_to_user { rows := [], nextId := 0 }
      { id := 1, role := none } 0 ("a") none none mixedRoleEnv
      activeStore ("a") ("b") 5
      { id := 0, userId := 1, tokenHash := hashToken ("a"),
        expiresAt := 999999999, revokedAt := none, replacedByToken := none,
        createdAt := 0, userAgent := none, ipAddress := none }
      { id := 1, role := none }
      rfl (by decide) (by decide) rfl).1
     ⟨1, ⟨1, "user"⟩, "a"⟩ (by decide),
   by decide,
   (null_role_defaults_to_user { rows := [], nextId := 0 }
      { id := 1, role := none } 0 ("a") none none mixedRoleEnv
      activeStore ("a") ("b") 5
      { id := 0, userId := 1, tokenHash := hashToken ("a"),
        expiresAt := 999999999, revokedAt := none, replacedByToken := none,
        createdAt := 0, userAgent := none, ipAddress := none }
      { id := 1, role := none }
      rfl (by decide) (by decide) rfl).2
     ⟨1, ⟨1, "user"⟩, "b"⟩ (by decide)⟩

/-- C10: revokeRefreshToken is a pure frame update: the list length is
preserved; rows whose id differs from the target are untouched; every row
with the target id — including one already revoked — gets revokedAt
overwritten with the current time and replacedByToken overwritten with the
supplied value (null when absent), all its other fields unchanged. -/
theorem revokeRefreshToken_frame (rows : List RefreshTokenRow)
    (tokenId : Nat) (repl : Option Nat) (now : Int) :
    (revokeRefreshToken rows tokenId repl now).length = rows.length ∧
    (∀ i : Nat, ∀ r, rows[i]? = some r → r.id ≠ tokenId →
      (revokeRefreshToken rows tokenId repl now)[i]? = some r) ∧
    (∀ i : Nat, ∀ r, rows[i]? = some r → r.id = tokenId →
      (revokeRefreshToken rows tokenId repl now)[i]? =
        some { r with revokedAt := some now, replacedByToken := repl }) := by
  refine ⟨?_, ?_, ?_⟩
  · simp [revokeRefreshToken]
  · intro i r hget hid
    simp [revokeRefreshToken, List.getElem?_map, hget, hid]
  · intro i r hget hid
    simp [revokeRefreshToken, List.getElem?_map, hget, hid]

/-- An already-revoked row carrying a replacement pointer, used to witness
the unconditional overwrite of revokeRefreshToken. -/
def frameRowA : RefreshTokenRow :=
  { id := 0, userId := 1, tokenHash := hashToken ("a"),
    expiresAt := 10, revokedAt := some 3, replacedByToken := some 9,
    createdAt := 0, userAgent := none, ipAddress := none }

/-- An unrelated active row, used to witness the frame condition of
revokeRefreshToken. -/
def frameRowB : RefreshTokenRow :=
  { id := 1, userId := 1, tokenHash := hashToken ("b"),
    expiresAt := 10, revokedAt := none, replacedByToken := none,
    createdAt := 0, userAgent := none, ipAddress := none }

/-- Witness for C10 on a two-row store: the matching row — already revoked
and already carrying a replacement pointer — is overwritten with the new
revocation time and a null replacement, while the other row is untouched. -/
theorem revokeRefreshToken_frame_witness :
    (revokeRefreshToken [frameRowA, frameRowB] 0 none 50).length = 2 ∧
    (revokeRefreshToken [frameRowA, frameRowB] 0 none 50)[1]? =
      some frameRowB ∧
    (revokeRefreshToken [frameRowA, frameRowB] 0 none 50)[0]? =
      some { frameRowA with revokedAt := some 50, replacedByToken := none } :=
  ⟨by simpa using (revokeRefreshToken_frame [frameRowA, frameRowB] 0 none 50).1,
   (revokeRefreshToken_frame [frameRowA, frameRowB] 0 none 50).2.1 1 frameRowB
     (by decide) (by decide),
   (revokeRefreshToken_frame [frameRowA, frameRowB] 0 none 50).2.2 0 frameRowA
     (by decide) (by decide)⟩

/-- C4: on every successful rotation, the new record — owned by the same
user as the presented record, with a fresh validity window and the audit
metadata of the current request, initially active and unsuperseded — is
inserted FIRST, and only afterwards is the presented record revoked with
supersededBy set to the new record's id; the resulting table is exactly the
old table plus the appended new row, with the presented row revoked. -/
theorem refresh_valid_path_inserts_then_revokes
    (env : Env) (st : Store) (tok : String) (now : Int) (sec : String)
    (ua ip : Option String) (pair : TokenPair)
    (h : (refreshTokens env st tok now sec ua ip).outcome = Except.ok pair) :
    ∃ old newRow,
      findRefreshTokenByHash st.rows (hashToken tok) = some old ∧
      newRow.id = st.nextId ∧
      newRow.userId = old.userId ∧
      newRow.tokenHash = hashToken sec ∧
      newRow.expiresAt = getRefreshTokenExpirationDate now ∧
      newRow.revokedAt = none ∧
      newRow.replacedByToken = none ∧
      newRow.createdAt = now ∧
      newRow.userAgent = ua ∧
      newRow.ipAddress = ip ∧
      (refreshTokens env st tok now sec ua ip).trace =
        [StoreOp.insert newRow, StoreOp.revoke old.id (some newRow.id)] ∧
      (refreshTokens env st tok now sec ua ip).store.rows =
        revokeRefreshToken (st.rows ++ [newRow]) old.id (some newRow.id) now := by
  unfold refreshTokens at h ⊢
  cases hfind : findRefreshTokenByHash st.rows (hashToken tok) with
  | none => rw [hfind] at h; simp at h
  | some old =>
      rw [hfind] at h
      by_cases hrev : old.revokedAt.isSome = true
      · simp [hrev] at h
      · by_cases hexp : old.expiresAt < now
        · simp [hrev, hexp] at h
        · simp only [hrev, hexp, if_false, Bool.false_eq_true,
            if_true, ite_false, ite_true] at h
          cases hu : getUserById env old.userId with
          | none => rw [hu] at h; simp [hrev, hexp] at h
          | some user =>
              rw [hu] at h
              simp only [] at h
              have huid : user.id = old.userId := by
                have := List.find?_some hu
                simpa [beq_iff_eq] using this
              cases hp : getProfileById env user.id with
              | none => rw [hp] at h; simp [hrev, hexp] at h
              | some prof =>
                  rw [hp] at h
                  simp only [] at h ⊢
                  rcases hcr : createRefreshToken st sec user.id
                      (getRefreshTokenExpirationDate now) ua ip now
                    with m | ⟨nr, st1⟩
                  · rw [hcr] at h; simp [hrev, hexp] at h
                  · rw [hcr] at h
                    have hnr : nr =
                        ({ id := st.nextId, userId := user.id,
                           tokenHash := hashToken sec,
                           expiresAt := getRefreshTokenExpirationDate now,
                           revokedAt := none, replacedByToken := none,
                           createdAt := now, userAgent := ua,
                           ipAddress := ip } : RefreshTokenRow) ∧
                        st1.rows = st.rows ++ [nr] ∧
                        st1.nextId = st.nextId + 1 := by
                      unfold createRefreshToken at hcr
                      simp only [] at hcr
                      split at hcr
                      · simp at hcr
                      · simp only [Except.ok.injEq, Prod.mk.injEq] at hcr
                        obtain ⟨h1, h2⟩ := hcr
                        refine ⟨h1.symm, ?_, ?_⟩
                        · rw [← h2, ← h1]
                        · rw [← h2]
                    obtain ⟨hnr1, hnr2, hnr3⟩ := hnr
                    rw [huid] at hp hcr hnr1
                    refine ⟨old, nr, rfl, ?_, ?_, ?_, ?_, ?_, ?_, ?_, ?_,
                      ?_, ?_, ?_⟩ <;>
                      simp [hrev, hexp, huid, hnr1, hnr2, hu, hp, hcr]

/-- Witness for C4: a concrete successful rotation, with its trace made of
the insert followed by the revoke of the presented record. -/
theorem refresh_valid_path_inserts_then_revokes_witness :
    (refreshTokens userOneEnv activeStore ("a") 5 ("b") none none).outcome =
      Except.ok ⟨1, ⟨1, "admin"⟩, "b"⟩ ∧
    ∃ old newRow,
      findRefreshTokenByHash activeStore.rows (hashToken ("a")) = some old ∧
      newRow.id = activeStore.nextId ∧
      newRow.userId = old.userId ∧
      newRow.tokenHash = hashToken ("b") ∧
      newRow.expiresAt = getRefreshTokenExpirationDate 5 ∧
      newRow.revokedAt = none ∧
      newRow.replacedByToken = none ∧
      newRow.createdAt = 5 ∧
      newRow.userAgent = none ∧
      newRow.ipAddress = none ∧
      (refreshTokens userOneEnv activeStore ("a") 5 ("b") none none).trace =
        [StoreOp.insert newRow, StoreOp.revoke old.id (some newRow.id)] ∧
      (refreshTokens userOneEnv activeStore ("a") 5 ("b") none none).store.rows =
        revokeRefreshToken (activeStore.rows ++ [newRow]) old.id
          (some newRow.id) 5 :=
  ⟨by decide,
   refresh_valid_path_inserts_then_revokes userOneEnv activeStore ("a") 5
     ("b") none none ⟨1, ⟨1, "admin"⟩, "b"⟩ (by decide)⟩

/-! ## The N-fold rotation chain (C5) -/

/-- Pairwise-distinct refresh secrets for the rotation chain, one per step. -/
def secGen (j : Nat) : String := String.mk (List.replicate j 's')

/-- Row `j` of the chain after `k` rotations: rows before index `k` are
revoked and point to their successor; row `k` is the active tip. -/
def chainRow (k j uid : Nat) (now : Int) (ua ip : Option String) :
    RefreshTokenRow :=
  { id := j, userId := uid, tokenHash := hashToken (secGen j),
    expiresAt := getRefreshTokenExpirationDate now,
    revokedAt := if j < k then some now else none,
    replacedByToken := if j < k then some (j + 1) else none,
    createdAt := now, userAgent := ua, ipAddress := ip }

/-- The whole store after `k` rotations of the single login record. -/
def chainStore (k uid : Nat) (now : Int) (ua ip : Option String) : Store :=
  { rows := (List.range (k + 1)).map (fun j => chainRow k j uid now ua ip),
    nextId := k + 1 }

/-- Environment for the chain scenario: the single owner exists and has a
profile. -/
def chainEnv (uid : Nat) : Env :=
  { users := [{ id := uid, role := some ("user") }], profiles := [uid] }

/-- The store produced by one login followed by `k` sequential refresh
rotations, each presenting the previous step's secret. -/
def chainState (uid : Nat) (now : Int) (ua ip : Option String) :
    Nat → Store
  | 0 => (login { rows := [], nextId := 0 } { id := uid, role := some ("user") }
      now (secGen 0) ua ip).store
  | Nat.succ k => (refreshTokens (chainEnv uid) (chainState uid now ua ip k)
      (secGen k) now (secGen (Nat.succ k)) ua ip).store

theorem hashToken_secGen_inj (i j : Nat)
    (h : hashToken (secGen i) = hashToken (secGen j)) : i = j := by
  have hd := congrArg (fun s => s.data.length) h
  simp [hashToken, secGen, String.data_append] at hd
  omega

theorem find?_map_range_succ_eq {α : Type} (p : α → Bool) (f : Nat → α)
    (k : Nat) (h : ∀ j, j < k → p (f j) = false) (hk : p (f k) = true) :
    ((List.range (k + 1)).map f).find? p = some (f k) := by
  rw [List.range_succ, List.map_append, List.find?_append]
  have h1 : ((List.range k).map f).find? p = none := by
    rw [List.find?_eq_none]
    intro x hx
    obtain ⟨j, hj, rfl⟩ := List.mem_map.mp hx
    simp [h j (List.mem_range.mp hj)]
  rw [h1]
  simp [hk]

theorem chain_find (uid : Nat) (now : Int) (ua ip : Option String) (k : Nat) :
    findRefreshTokenByHash (chainStore k uid now ua ip).rows
      (hashToken (secGen k)) =
      some { id := k, userId := uid, tokenHash := hashToken (secGen k),
             expiresAt := getRefreshTokenExpirationDate now,
             revokedAt := none, replacedByToken := none, createdAt := now,
             userAgent := ua, ipAddress := ip } := by
  have hk : chainRow k k uid now ua ip =
      { id := k, userId := uid, tokenHash := hashToken (secGen k),
        expiresAt := getRefreshTokenExpirationDate now,
        revokedAt := none, replacedByToken := none, createdAt := now,
        userAgent := ua, ipAddress := ip } := by
    simp [chainRow]
  rw [← hk]
  unfold findRefreshTokenByHash chainStore
  apply find?_map_range_succ_eq
  · intro j hj
    simp [chainRow, hj]
  · simp [chainRow]

theorem chain_no_conflict (uid : Nat) (now : Int) (ua ip : Option String)
    (k : Nat) :
    ((chainStore k uid now ua ip).rows.any
      (fun r => r.tokenHash == hashToken (secGen (k + 1)))) = false := by
  rw [List.any_eq_false]
  intro r hr
  obtain ⟨j, hj, rfl⟩ := List.mem_map.mp hr
  have hj' := List.mem_range.mp hj
  simp only [chainRow, beq_iff_eq]
  intro hcontra
  have := hashToken_secGen_inj j (k + 1) hcontra
  omega

theorem chain_revoke (uid : Nat) (now : Int) (ua ip : Option String)
    (k : Nat) :
    revokeRefreshToken
        ((chainStore k uid now ua ip).rows ++
          [{ id := k + 1, userId := uid,
             tokenHash := hashToken (secGen (k + 1)),
             expiresAt := getRefreshTokenExpirationDate now,
             revokedAt := none, replacedByToken := none, createdAt := now,
             userAgent := ua, ipAddress := ip }])
        k (some (k + 1)) now =
      (List.range (k + 2)).map (fun j => chainRow (k + 1) j uid now ua ip) := by
  have htip :
      ({ id := k + 1, userId := uid,
         tokenHash := hashToken (secGen (k + 1)),
         expiresAt := getRefreshTokenExpirationDate now,
         revokedAt := none, replacedByToken := none, createdAt := now,
         userAgent := ua, ipAddress := ip } : RefreshTokenRow) =
      chainRow (k + 1) (k + 1) uid now ua ip := by
    simp [chainRow]
  rw [htip]
  unfold revokeRefreshToken chainStore
  rw [List.map_append, List.map_map]
  have h1 : (List.range (k + 1)).map
      ((fun r : RefreshTokenRow =>
        if r.id == k then
          { r with revokedAt := some now, replacedByToken := some (k + 1) }
        else r) ∘ (fun j => chainRow k j uid now ua ip)) =
      (List.range (k + 1)).map (fun j => chainRow (k + 1) j uid now ua ip) := by
    apply List.map_congr_left
    intro j hj
    have hj' := List.mem_range.mp hj
    by_cases hjk : j = k
    · subst hjk
      simp [chainRow, Nat.lt_irrefl, Nat.lt_succ_self]
    · have hlt : j < k := by omega
      simp [chainRow, hjk, hlt, Nat.lt_succ_of_lt hlt]
  rw [h1]
  have h2 : (List.range (k + 2)) = List.range (k + 1) ++ [k + 1] :=
    List.range_succ (k + 1)
  rw [h2, List.map_append]
  simp [chainRow, Nat.lt_irrefl]

theorem chain_step (uid : Nat) (now : Int) (ua ip : Option String) (k : Nat) :
    refreshTokens (chainEnv uid) (chainStore k uid now ua ip) (secGen k) now
        (secGen (k + 1)) ua ip =
      ⟨Except.ok ⟨uid, ⟨uid, "user"⟩, secGen (k + 1)⟩,
       chainStore (k + 1) uid now ua ip,
       [StoreOp.insert (chainRow (k + 1) (k + 1) uid now ua ip),
        StoreOp.revoke k (some (k + 1))]⟩ := by
  have hexp : ¬ (getRefreshTokenExpirationDate now < now) := by
    simp [getRefreshTokenExpirationDate, REFRESH_TOKEN_EXPIRATION_MINUTES]
  have hu : getUserById (chainEnv uid) uid =
      some { id := uid, role := some ("user") } := by
    simp [getUserById, chainEnv]
  have hp : getProfileById (chainEnv uid) uid = some uid := by
    simp [getProfileById, chainEnv]
  have hcr : createRefreshToken (chainStore k uid now ua ip)
      (secGen (k + 1)) uid (getRefreshTokenExpirationDate now) ua ip now =
      Except.ok
        (({ id := k + 1, userId := uid,
            tokenHash := hashToken (secGen (k + 1)),
            expiresAt := getRefreshTokenExpirationDate now,
            revokedAt := none, replacedByToken := none, createdAt := now,
            userAgent := ua, ipAddress := ip } : RefreshTokenRow),
         { rows := (chainStore k uid now ua ip).rows ++
             [{ id := k + 1, userId := uid,
                tokenHash := hashToken (secGen (k + 1)),
                expiresAt := getRefreshTokenExpirationDate now,
                revokedAt := none, replacedByToken := none, createdAt := now,
                userAgent := ua, ipAddress := ip }],
           nextId := k + 2 }) := by
    unfold createRefreshToken
    rw [if_neg]
    · rfl
    · intro hcon
      rw [chain_no_conflict uid now ua ip k] at hcon
      exact Bool.false_ne_true hcon
  have htip : chainRow (k + 1) (k + 1) uid now ua ip =
      ({ id := k + 1, userId := uid,
          tokenHash := hashToken (secGen (k + 1)),
          expiresAt := getRefreshTokenExpirationDate now,
          revokedAt := none, replacedByToken := none, createdAt := now,
          userAgent := ua, ipAddress := ip } : RefreshTokenRow) := by
    simp [chainRow]
  have hst : chainStore (k + 1) uid now ua ip =
      { rows := (List.range (k + 2)).map
          (fun j => chainRow (k + 1) j uid now ua ip),
        nextId := k + 2 } := rfl
  unfold refreshTokens
  rw [chain_find]
  simp only [Option.isSome_none, Bool.false_eq_true, if_false, ite_false,
    if_neg hexp, hu, hp, hcr, htip, hst]
  rw [chain_revoke]
  simp [generateToken, roleOrDefault]

theorem chainState_eq (uid : Nat) (now : Int) (ua ip : Option String)
    (k : Nat) :
    chainState uid now ua ip k = chainStore k uid now ua ip := by
  induction k with
  | zero =>
      show (login { rows := [], nextId := 0 }
        { id := uid, role := some ("user") } now (secGen 0) ua ip).store =
        chainStore 0 uid now ua ip
      unfold login createRefreshToken chainStore
      simp [chainRow, List.range_succ]
  | succ k ih =>
      show (refreshTokens (chainEnv uid) (chainState uid now ua ip k)
        (secGen k) now (secGen (k + 1)) ua ip).store =
        chainStore (k + 1) uid now ua ip
      rw [ih, chain_step]

/-- C5: starting from a single login record, N sequential refresh rotations
all succeed and leave a chain of N + 1 records: every record belongs to the
owner and has id at most N, every id up to N is present, a record is active
(revokedAt null) exactly when it is the last-created one (id N), every
earlier record is revoked with supersededBy pointing to the record that
replaced it (id + 1), and exactly one record of the owner is active. -/
theorem rotation_chain_invariant (uid : Nat) (now : Int)
    (ua ip : Option String) (N : Nat) :
    (∀ k, k < N →
      (refreshTokens (chainEnv uid) (chainState uid now ua ip k) (secGen k)
        now (secGen (k + 1)) ua ip).outcome =
        Except.ok ⟨uid, ⟨uid, "user"⟩, secGen (k + 1)⟩) ∧
    (chainState uid now ua ip N).rows.length = N + 1 ∧
    (∀ r ∈ (chainState uid now ua ip N).rows, r.userId = uid ∧ r.id ≤ N) ∧
    (∀ j, j ≤ N → ∃ r ∈ (chainState uid now ua ip N).rows, r.id = j) ∧
    (∀ r ∈ (chainState uid now ua ip N).rows,
      (r.revokedAt = none ↔ r.id = N)) ∧
    (∀ r ∈ (chainState uid now ua ip N).rows, r.id < N →
      r.revokedAt = some now ∧ r.replacedByToken = some (r.id + 1)) ∧
    ((chainState uid now ua ip N).rows.filter
      (fun r => r.revokedAt.isNone)).length = 1 := by
  refine ⟨?_, ?_, ?_, ?_, ?_, ?_, ?_⟩
  · intro k hk
    rw [chainState_eq, chain_step]
  · rw [chainState_eq]
    simp [chainStore]
  · intro r hr
    rw [chainState_eq] at hr
    obtain ⟨j, hj, rfl⟩ := List.mem_map.mp hr
    have hj' := List.mem_range.mp hj
    constructor
    · rfl
    · show j ≤ N
      omega
  · intro j hj
    rw [chainState_eq]
    refine ⟨chainRow N j uid now ua ip, ?_, rfl⟩
    exact List.mem_map.mpr ⟨j, List.mem_range.mpr (by omega), rfl⟩
  · intro r hr
    rw [chainState_eq] at hr
    obtain ⟨j, hj, rfl⟩ := List.mem_map.mp hr
    have hj' := List.mem_range.mp hj
    show (if j < N then some now else none) = none ↔ j = N
    by_cases hjN : j < N
    · simp [hjN]
      omega
    · simp [hjN]
      omega
  · intro r hr hid
    rw [chainState_eq] at hr
    obtain ⟨j, hj, rfl⟩ := List.mem_map.mp hr
    have hidj : j < N := hid
    constructor
    · show (if j < N then some now else none) = some now
      simp [hidj]
    · show (if j < N then some (j + 1) else none) = some (j + 1)
      simp [hidj]
  · rw [chainState_eq]
    show ((List.range (N + 1)).map
      (fun j => chainRow N j uid now ua ip) |>.filter
        (fun r => r.revokedAt.isNone)).length = 1
    rw [List.range_succ, List.map_append, List.filter_append]
    have h1 : ((List.range N).map
        (fun j => chainRow N j uid now ua ip)).filter
        (fun r => r.revokedAt.isNone) = [] := by
      rw [List.filter_eq_nil_iff]
      intro r hr
      obtain ⟨j, hj, rfl⟩ := List.mem_map.mp hr
      simp [chainRow, List.mem_range.mp hj]
    rw [h1]
    simp [chainRow]

/-- Witness for C5 at N = 2: the first rotation succeeds, the store holds
three records, and exactly one of them is active. -/
theorem rotation_chain_invariant_witness :
    (refreshTokens (chainEnv 7) (chainState 7 0 none none 0) (secGen 0) 0
      (secGen 1) none none).outcome =
      Except.ok ⟨7, ⟨7, "user"⟩, secGen 1⟩ ∧
    (chainState 7 0 none none 2).rows.length = 3 ∧
    ((chainState 7 0 none none 2).rows.filter
      (fun r => r.revokedAt.isNone)).length = 1 :=
  ⟨(rotation_chain_invariant 7 0 none none 2).1 0 (by decide),
   (rotation_chain_invariant 7 0 none none 2).2.1,
   (rotation_chain_invariant 7 0 none none 2).2.2.2.2.2.2⟩

end MyApiExpress
